import Mathlib

/-!
Shallow embedding of the EXIF-GPS extraction core of `src/main.rs`
(functions `get_gps_rational`, `get_gps_ref`, `get_gps_altitude`,
`get_gps_timestamp`, `convert_to_decimal_degree`, and the GPS section of
`get_file_info`).

Modelling conventions:
* Rust `f64` is modelled by the type `F` below: `NaN`, signed infinity, or a
  finite value carried as an exact rational.  The arithmetic performed by the
  program (u32→f64 conversion, `+`, `/` by the literals `60.0` and `3600.0`,
  negation, `abs`, `>= 0.0`, `as u32`) is modelled exactly; IEEE rounding of
  finite intermediate results is idealised away, while the NaN/infinity
  structure (division by a zero denominator, propagation) is kept.
* Rust panics (out-of-bounds `Vec` indexing such as `chars[0]` / `bytes[0]`)
  are modelled with `Except String`, the error carrying the panic reason.
* The `exif::Exif` container restricted to `In::PRIMARY` is modelled as an
  association list from tags to values; `Value` keeps the constructors the
  program inspects (`Rational`, `Ascii`, `Byte`) and collapses every other
  encoding of the `exif::Value` enum into `Other`.
-/

namespace GPSImage

/-- Model of `exif::Rational`: a numerator/denominator pair of unsigned
32-bit integers (carried as `Nat`; no arithmetic in the program wraps). -/
structure Rational where
  num : Nat
  denom : Nat
deriving DecidableEq

/-- Model of an `f64` value: NaN, a signed infinity, or a finite value
carried as an exact rational. -/
inductive F where
  | nan : F
  | inf (isNeg : Bool) : F
  | fin (q : ℚ) : F
deriving DecidableEq

/-- Sign bit of a float value (`true` = negative); finite zero counts as
positive, matching that the model has no negative zero. -/
def F.isNegative : F → Bool
  | .nan => false
  | .inf s => s
  | .fin q => decide (q < 0)

/-- IEEE division on the model (exact where finite): NaN propagates,
`±∞/±∞` and `0/0` are NaN, finite nonzero over zero is a signed infinity,
finite over infinity is zero. -/
def F.div : F → F → F
  | .nan, _ => .nan
  | .inf _, .nan => .nan
  | .inf _, .inf _ => .nan
  | .inf a, .fin q => .inf (xor a (decide (q < 0)))
  | .fin _, .nan => .nan
  | .fin _, .inf _ => .fin 0
  | .fin p, .fin q =>
    if q = 0 then
      if p = 0 then .nan else .inf (decide (p < 0))
    else .fin (p / q)

/-- IEEE addition on the model (exact where finite): NaN propagates,
opposite infinities give NaN, an infinity absorbs finite addends. -/
def F.add : F → F → F
  | .nan, _ => .nan
  | .inf _, .nan => .nan
  | .inf a, .inf b => if a = b then .inf a else .nan
  | .inf a, .fin _ => .inf a
  | .fin _, .nan => .nan
  | .fin _, .inf b => .inf b
  | .fin p, .fin q => .fin (p + q)

/-- IEEE negation on the model. -/
def F.neg : F → F
  | .nan => .nan
  | .inf s => .inf (!s)
  | .fin q => .fin (-q)

/-- Model of `f64::abs`. -/
def F.abs : F → F
  | .nan => .nan
  | .inf _ => .inf false
  | .fin q => .fin |q|

/-- Model of the comparison `x >= 0.0` (false on NaN). -/
def F.ge0 : F → Bool
  | .nan => false
  | .inf s => !s
  | .fin q => decide (0 ≤ q)

/-- Model of the Rust cast `x as u32`: truncation toward zero, saturating
at the `u32` bounds, NaN mapped to `0`. -/
def F.toU32 : F → Nat
  | .nan => 0
  | .inf s => if s then 0 else 4294967295
  | .fin q => if q < 0 then 0 else min ⌊q⌋.toNat 4294967295

/-- Model of `exif::Rational::to_f64`: `self.num as f64 / self.denom as f64`. -/
def to_f64 (r : Rational) : F :=
  F.div (F.fin (r.num : ℚ)) (F.fin (r.denom : ℚ))

/-- The EXIF tags the program reads (all in the primary-image directory). -/
inductive Tag where
  | GPSLatitude : Tag
  | GPSLatitudeRef : Tag
  | GPSLongitude : Tag
  | GPSLongitudeRef : Tag
  | GPSAltitude : Tag
  | GPSAltitudeRef : Tag
  | GPSTimeStamp : Tag
  | GPSDateStamp : Tag
deriving DecidableEq

/-- Model of `exif::Value` restricted to the constructors the program
inspects: `Rational` (sequence of rationals), `Ascii` (sequence of byte
strings, each a `Vec<u8>`), `Byte` (raw bytes); `Other` stands for every
remaining encoding of the enum. -/
inductive Value where
  | Rational (rs : List GPSImage.Rational) : Value
  | Ascii (chars : List (List Nat)) : Value
  | Byte (bytes : List Nat) : Value
  | Other : Value
deriving DecidableEq

/-- Model of the parsed `exif::Exif` container, restricted to the fields of
the primary-image directory (`In::PRIMARY`): an association list from tags
to raw values. -/
structure Exif where
  fields : List (Tag × Value)
deriving DecidableEq

/-- Model of `exif.get_field(tag, In::PRIMARY)`: first value stored for the
tag, if any. -/
def getField (e : Exif) (tag : Tag) : Option Value :=
  (e.fields.find? (fun p => decide (p.1 = tag))).map (fun p => p.2)

/-- Whether a byte is a UTF-8 continuation byte (`0x80..0xBF`). -/
def isCont (b : Nat) : Bool :=
  decide (0x80 ≤ b) && decide (b < 0xC0)

/-- Model of `std::str::from_utf8` (external standard library): decode a
byte sequence as UTF-8, rejecting invalid leads, truncated or malformed
continuations, overlong forms, surrogates and out-of-range code points.
The first argument is fuel (one byte consumed per step suffices). -/
def decodeUtf8Aux : Nat → List Nat → Option (List Char)
  | 0, _ => none
  | _, [] => some []
  | fuel + 1, b :: rest =>
    if b < 0x80 then
      (decodeUtf8Aux fuel rest).map (fun cs => Char.ofNat b :: cs)
    else if b < 0xC2 then
      none
    else if b < 0xE0 then
      match rest with
      | b1 :: rest2 =>
        if isCont b1 then
          (decodeUtf8Aux fuel rest2).map
            (fun cs => Char.ofNat ((b - 0xC0) * 0x40 + (b1 - 0x80)) :: cs)
        else none
      | [] => none
    else if b < 0xF0 then
      match rest with
      | b1 :: b2 :: rest3 =>
        let cp := (b - 0xE0) * 0x1000 + (b1 - 0x80) * 0x40 + (b2 - 0x80)
        if isCont b1 && isCont b2 && decide (0x800 ≤ cp) &&
            !(decide (0xD800 ≤ cp) && decide (cp ≤ 0xDFFF)) then
          (decodeUtf8Aux fuel rest3).map (fun cs => Char.ofNat cp :: cs)
        else none
      | _ => none
    else if b < 0xF5 then
      match rest with
      | b1 :: b2 :: b3 :: rest4 =>
        let cp := (b - 0xF0) * 0x40000 + (b1 - 0x80) * 0x1000 +
          (b2 - 0x80) * 0x40 + (b3 - 0x80)
        if isCont b1 && isCont b2 && isCont b3 &&
            decide (0x10000 ≤ cp) && decide (cp ≤ 0x10FFFF) then
          (decodeUtf8Aux fuel rest4).map (fun cs => Char.ofNat cp :: cs)
        else none
      | _ => none
    else none

/-- Decode a byte sequence as UTF-8 into a string, or `none` when invalid. -/
def decodeUtf8 (bs : List Nat) : Option String :=
  (decodeUtf8Aux (bs.length + 1) bs).map String.mk

/-- Model of `get_gps_rational` (`src/main.rs` lines 17-24): the tag's
value when present and rational-encoded, `none` otherwise. -/
def get_gps_rational (e : Exif) (tag : Tag) : Option (List GPSImage.Rational) :=
  match getField e tag with
  | some (Value.Rational rationals) => some rationals
  | _ => none

/-- Model of `get_gps_ref` (`src/main.rs` lines 26-35): for an ASCII value,
decode its first byte string (`chars[0]` — an out-of-bounds panic when the
ASCII value holds no byte string is the `Except.error`); absence, another
encoding, or invalid UTF-8 give `none`. -/
def get_gps_ref (e : Exif) (tag : Tag) : Except String (Option String) :=
  match getField e tag with
  | some (Value.Ascii chars) =>
    match chars with
    | [] => Except.error "index out of bounds"
    | c0 :: _ =>
      match decodeUtf8 c0 with
      | some s => Except.ok (some s)
      | none => Except.ok none
  | _ => Except.ok none

/-- Model of `get_gps_altitude` (`src/main.rs` lines 37-56): first rational
of a non-empty `GPSAltitude` sequence, negated when the `GPSAltitudeRef`
byte is nonzero (`bytes[0]` on an empty byte value is a panic, modelled as
the `Except.error`); a missing or non-byte reference defaults to positive. -/
def get_gps_altitude (e : Exif) : Except String (Option F) :=
  match get_gps_rational e Tag.GPSAltitude with
  | none => Except.ok none
  | some [] => Except.ok none
  | some (a0 :: _) =>
    let refStep : Except String Bool :=
      match getField e Tag.GPSAltitudeRef with
      | some (Value.Byte bytes) =>
        match bytes with
        | [] => Except.error "index out of bounds"
        | b :: _ => Except.ok (decide (b ≠ 0))
      | some _ => Except.ok false
      | none => Except.ok false
    match refStep with
    | Except.error msg => Except.error msg
    | Except.ok altRef =>
      let altitude := to_f64 a0
      Except.ok (some (if altRef then F.neg altitude else altitude))

/-- Decimal digits of a natural number (fuel-driven, most significant
first); models Rust integer formatting. -/
def natDigitsAux : Nat → Nat → List Char → List Char
  | 0, _, acc => acc
  | fuel + 1, n, acc =>
    let d := Char.ofNat (48 + n % 10)
    if n < 10 then d :: acc else natDigitsAux fuel (n / 10) (d :: acc)

/-- Decimal representation of a natural number. -/
def natRepr (n : Nat) : String :=
  String.mk (natDigitsAux (n + 1) n [])

/-- Left-pad a string with `'0'` up to the given width; models Rust's
zero-padding format flag. -/
def zeroPad (w : Nat) (s : String) : String :=
  if w ≤ s.length then s
  else String.mk (List.replicate (w - s.length) '0') ++ s

/-- Model of the Rust format specifier `{:02}` on an unsigned integer. -/
def pad2 (n : Nat) : String :=
  zeroPad 2 (natRepr n)

/-- Model of `get_gps_timestamp` (`src/main.rs` lines 58-80): requires
exactly 3 rationals, truncates each to `u32`, prepends the decoded
`GPSDateStamp` string when present (its `chars[0]` on an empty ASCII value
is a panic, modelled as the `Except.error`), zero-pads to 2 digits. -/
def get_gps_timestamp (e : Exif) : Except String (Option String) :=
  match get_gps_rational e Tag.GPSTimeStamp with
  | none => Except.ok none
  | some time =>
    match time with
    | [t0, t1, t2] =>
      let hour := F.toU32 (to_f64 t0)
      let minute := F.toU32 (to_f64 t1)
      let second := F.toU32 (to_f64 t2)
      let dateStep : Except String (Option String) :=
        match getField e Tag.GPSDateStamp with
        | some (Value.Ascii chars) =>
          match chars with
          | [] => Except.error "index out of bounds"
          | c0 :: _ => Except.ok (decodeUtf8 c0)
        | some _ => Except.ok none
        | none => Except.ok none
      match dateStep with
      | Except.error msg => Except.error msg
      | Except.ok (some date) =>
        Except.ok (some (date ++ " " ++ pad2 hour ++ ":" ++ pad2 minute ++
          ":" ++ pad2 second))
      | Except.ok none =>
        Except.ok (some (pad2 hour ++ ":" ++ pad2 minute ++ ":" ++ pad2 second))
    | _ => Except.ok none

/-- Model of `convert_to_decimal_degree` (`src/main.rs` lines 82-98): a
sequence without exactly 3 components yields `0.0`; otherwise
`degrees + minutes/60.0 + seconds/3600.0`, negated when the reference is
`"S"` or `"W"`. -/
def convert_to_decimal_degree (components : List GPSImage.Rational)
    (reference : String) : F :=
  if components.length ≠ 3 then F.fin 0
  else
    match components with
    | [c0, c1, c2] =>
      let degrees := to_f64 c0
      let minutes := to_f64 c1
      let seconds := to_f64 c2
      let decimal :=
        F.add (F.add degrees (F.div minutes (F.fin 60))) (F.div seconds (F.fin 3600))
      if reference = "S" ∨ reference = "W" then F.neg decimal else decimal
    | _ => F.fin 0

/-- Nonnegative rational rounded to the nearest natural number, ties to
even; the rounding Rust's fixed-precision float formatting applies to the
exact value. -/
def roundHalfEven (q : ℚ) : Nat :=
  let fl := ⌊q⌋.toNat
  let fr := q - ⌊q⌋
  if fr < 1 / 2 then fl
  else if 1 / 2 < fr then fl + 1
  else if fl % 2 = 0 then fl else fl + 1

/-- Model of the Rust format specifier `{:.prec}` on an `f64` (exact on the
idealised rational value): sign, integer part, then `prec` fraction digits
of the half-even rounding; infinities and NaN print as Rust prints them. -/
def fmtFixed (prec : Nat) (x : F) : String :=
  match x with
  | F.nan => "NaN"
  | F.inf s => if s then "-inf" else "inf"
  | F.fin q =>
    let n := roundHalfEven (|q| * (10 : ℚ) ^ prec)
    let ip := natRepr (n / 10 ^ prec)
    let s :=
      if prec = 0 then ip
      else ip ++ "." ++ zeroPad prec (natRepr (n % 10 ^ prec))
    if q < 0 then "-" ++ s else s

/-- Model of the Rust `Display` format `{}` on an `f64`, over the idealised
rational value: the shortest terminating decimal expansion when one exists
within 64 fraction digits (every value a real `f64` takes terminates), and
a 17-digit fixed rendering as the out-of-model fallback. -/
def displayF (x : F) : String :=
  match x with
  | F.nan => "NaN"
  | F.inf s => if s then "-inf" else "inf"
  | F.fin q =>
    match (List.range 65).find? (fun k => decide ((|q| * (10 : ℚ) ^ k).den = 1)) with
    | some k =>
      let m := (|q| * (10 : ℚ) ^ k).num.toNat
      let s :=
        if k = 0 then natRepr m
        else natRepr (m / 10 ^ k) ++ "." ++ zeroPad k (natRepr (m % 10 ^ k))
      if q < 0 then "-" ++ s else s
    | none => fmtFixed 17 x

/-- Model of the coordinate block of `get_file_info` (`src/main.rs` lines
144-163): when all four of latitude rationals, latitude reference,
longitude rationals and longitude reference are present, the two pushed
lines (location with magnitude, `*` separator and hemisphere letter, and
the Google-Maps link with signed values); otherwise no lines.  A panic
inside either reference read propagates. -/
def coordinateLines (e : Exif) : Except String (List String) :=
  match get_gps_ref e Tag.GPSLatitudeRef with
  | Except.error msg => Except.error msg
  | Except.ok latRefOpt =>
    match get_gps_ref e Tag.GPSLongitudeRef with
    | Except.error msg => Except.error msg
    | Except.ok lonRefOpt =>
      match get_gps_rational e Tag.GPSLatitude, latRefOpt,
          get_gps_rational e Tag.GPSLongitude, lonRefOpt with
      | some lat, some latRef, some lon, some lonRef =>
        let latitude := convert_to_decimal_degree lat latRef
        let longitude := convert_to_decimal_degree lon lonRef
        Except.ok
          ["Location: " ++ fmtFixed 6 latitude.abs ++ "*" ++
            (if latitude.ge0 then "N" else "S") ++ ", " ++
            fmtFixed 6 longitude.abs ++ "*" ++
            (if longitude.ge0 then "E" else "W"),
          "Google Maps Link: https://www.google.com/maps?q=" ++
            displayF latitude ++ "," ++ displayF longitude]
      | _, _, _, _ => Except.ok []

/-- Model of the full GPS section of `get_file_info` (`src/main.rs` lines
144-171): the coordinate lines, then the altitude line, then the timestamp
line, each only when its datum is present; a panic in any step propagates. -/
def gpsInfoLines (e : Exif) : Except String (List String) :=
  match coordinateLines e with
  | Except.error msg => Except.error msg
  | Except.ok coordLs =>
    match get_gps_altitude e with
    | Except.error msg => Except.error msg
    | Except.ok altOpt =>
      let altLs := match altOpt with
        | some alt => ["Altitude: " ++ fmtFixed 1 alt ++ " meters"]
        | none => []
      match get_gps_timestamp e with
      | Except.error msg => Except.error msg
      | Except.ok tsOpt =>
        let tsLs := match tsOpt with
          | some t => ["GPS Timestamp: " ++ t]
          | none => []
        Except.ok (coordLs ++ altLs ++ tsLs)

/-! Helper lemmas shared by the claim theorems. -/

lemma div_fin_fin (p q : ℚ) (hq : q ≠ 0) :
    F.div (F.fin p) (F.fin q) = F.fin (p / q) := by
  simp [F.div, hq]

lemma add_fin_fin (p q : ℚ) :
    F.add (F.fin p) (F.fin q) = F.fin (p + q) := rfl

lemma to_f64_of_denom_ne_zero (r : Rational) (h : r.denom ≠ 0) :
    to_f64 r = F.fin ((r.num : ℚ) / r.denom) := by
  have hq : ((r.denom : ℚ)) ≠ 0 := Nat.cast_ne_zero.mpr h
  simp [to_f64, F.div, hq]

lemma convert_three_eval (c0 c1 c2 : Rational) (reference : String)
    (h0 : c0.denom ≠ 0) (h1 : c1.denom ≠ 0) (h2 : c2.denom ≠ 0) :
    convert_to_decimal_degree [c0, c1, c2] reference =
      F.fin (if reference = "S" ∨ reference = "W"
        then -((c0.num : ℚ) / c0.denom + ((c1.num : ℚ) / c1.denom) / 60 +
          ((c2.num : ℚ) / c2.denom) / 3600)
        else (c0.num : ℚ) / c0.denom + ((c1.num : ℚ) / c1.denom) / 60 +
          ((c2.num : ℚ) / c2.denom) / 3600) := by
  unfold convert_to_decimal_degree
  rw [if_neg (by simp)]
  simp only []
  rw [to_f64_of_denom_ne_zero c0 h0, to_f64_of_denom_ne_zero c1 h1,
    to_f64_of_denom_ne_zero c2 h2,
    div_fin_fin _ 60 (by norm_num), div_fin_fin _ 3600 (by norm_num),
    add_fin_fin, add_fin_fin]
  split
  · rfl
  · rfl

/-- C1: for every component sequence of exactly 3 rationals (with defined,
nonzero denominators) and every reference string, `convert_to_decimal_degree`
returns `degrees + minutes/60 + seconds/3600`, negated exactly when the
reference is `"S"` or `"W"` and left as the positive sum otherwise. -/
theorem convert_three_formula (c0 c1 c2 : Rational) (reference : String)
    (h0 : c0.denom ≠ 0) (h1 : c1.denom ≠ 0) (h2 : c2.denom ≠ 0) :
    convert_to_decimal_degree [c0, c1, c2] reference =
      F.fin (if reference = "S" ∨ reference = "W"
        then -((c0.num : ℚ) / c0.denom + ((c1.num : ℚ) / c1.denom) / 60 +
          ((c2.num : ℚ) / c2.denom) / 3600)
        else (c0.num : ℚ) / c0.denom + ((c1.num : ℚ) / c1.denom) / 60 +
          ((c2.num : ℚ) / c2.denom) / 3600) :=
  convert_three_eval c0 c1 c2 reference h0 h1 h2

/-- Witness for C1 at degrees 40, minutes 26, seconds 46, reference `"S"`. -/
theorem convert_three_formula_witness :
    convert_to_decimal_degree [⟨40, 1⟩, ⟨26, 1⟩, ⟨46, 1⟩] "S" =
      F.fin (-(40 + 26 / 60 + 46 / 3600)) := by
  rw [convert_three_formula ⟨40, 1⟩ ⟨26, 1⟩ ⟨46, 1⟩ "S"
    (by decide) (by decide) (by decide)]
  simp only [F.fin.injEq]
  norm_num

/-- C2: for every component sequence whose length is not exactly 3 and
every reference string, `convert_to_decimal_degree` returns exactly `0.0`,
regardless of the sequence's contents. -/
theorem convert_nonthree_zero (components : List GPSImage.Rational)
    (reference : String) (h : components.length ≠ 3) :
    convert_to_decimal_degree components reference = F.fin 0 := by
  unfold convert_to_decimal_degree
  rw [if_pos h]

/-- Witness for C2 at a length-2 sequence. -/
theorem convert_nonthree_zero_witness :
    convert_to_decimal_degree [⟨1, 2⟩, ⟨3, 4⟩] "N" = F.fin 0 :=
  convert_nonthree_zero [⟨1, 2⟩, ⟨3, 4⟩] "N" (by decide)

/-- C10: the converter never validates the reference against the four
hemisphere letters: for every 3-element sequence (with nonzero
denominators) and every reference string other than exactly `"S"` and
exactly `"W"`, it returns the non-negated, nonnegative sum. -/
theorem convert_ref_unvalidated (c0 c1 c2 : Rational) (reference : String)
    (h0 : c0.denom ≠ 0) (h1 : c1.denom ≠ 0) (h2 : c2.denom ≠ 0)
    (hS : reference ≠ "S") (hW : reference ≠ "W") :
    convert_to_decimal_degree [c0, c1, c2] reference =
      F.fin ((c0.num : ℚ) / c0.denom + ((c1.num : ℚ) / c1.denom) / 60 +
        ((c2.num : ℚ) / c2.denom) / 3600) ∧
    0 ≤ (c0.num : ℚ) / c0.denom + ((c1.num : ℚ) / c1.denom) / 60 +
      ((c2.num : ℚ) / c2.denom) / 3600 := by
  constructor
  · rw [convert_three_eval c0 c1 c2 reference h0 h1 h2,
      if_neg (not_or.mpr ⟨hS, hW⟩)]
  · positivity

/-- Witness for C10 at the lowercase reference `"s"`. -/
theorem convert_ref_unvalidated_witness :
    convert_to_decimal_degree [⟨40, 1⟩, ⟨26, 1⟩, ⟨46, 1⟩] "s" =
      F.fin (40 + 26 / 60 + 46 / 3600) := by
  rw [(convert_ref_unvalidated ⟨40, 1⟩ ⟨26, 1⟩ ⟨46, 1⟩ "s"
    (by decide) (by decide) (by decide) (by decide) (by decide)).1]
  simp only [F.fin.injEq]
  norm_num

/-- C4: altitude extraction returns a value only when the `GPSAltitude`
rational sequence is non-empty, uses only its first element as the
magnitude, and signs it from the `GPSAltitudeRef` byte: byte `0` keeps the
value positive, any nonzero byte negates it, and an absent reference
defaults to positive. -/
theorem altitude_spec (e : Exif) :
    (getField e Tag.GPSAltitude = none → get_gps_altitude e = Except.ok none) ∧
    (getField e Tag.GPSAltitude = some (Value.Rational []) →
      get_gps_altitude e = Except.ok none) ∧
    (∀ r rs, getField e Tag.GPSAltitude = some (Value.Rational (r :: rs)) →
      ((getField e Tag.GPSAltitudeRef = none →
        get_gps_altitude e = Except.ok (some (to_f64 r))) ∧
      (∀ bs, getField e Tag.GPSAltitudeRef = some (Value.Byte (0 :: bs)) →
        get_gps_altitude e = Except.ok (some (to_f64 r))) ∧
      (∀ b bs, getField e Tag.GPSAltitudeRef = some (Value.Byte (b :: bs)) →
        b ≠ 0 → get_gps_altitude e = Except.ok (some (F.neg (to_f64 r)))))) := by
  refine ⟨?_, ?_, ?_⟩
  · intro h
    simp [get_gps_altitude, get_gps_rational, h]
  · intro h
    simp [get_gps_altitude, get_gps_rational, h]
  · intro r rs h
    refine ⟨?_, ?_, ?_⟩
    · intro href
      simp [get_gps_altitude, get_gps_rational, h, href]
    · intro bs href
      simp [get_gps_altitude, get_gps_rational, h, href]
    · intro b bs href hb
      simp [get_gps_altitude, get_gps_rational, h, href, hb]

/-- Witness for C4: altitude `15/2` with reference byte `1` is negated. -/
theorem altitude_spec_witness :
    get_gps_altitude
      ⟨[(Tag.GPSAltitude, Value.Rational [⟨15, 2⟩]),
        (Tag.GPSAltitudeRef, Value.Byte [1])]⟩ =
      Except.ok (some (F.neg (to_f64 ⟨15, 2⟩))) :=
  (((altitude_spec
    ⟨[(Tag.GPSAltitude, Value.Rational [⟨15, 2⟩]),
      (Tag.GPSAltitudeRef, Value.Byte [1])]⟩).2.2
    ⟨15, 2⟩ [] (by decide)).2.2 1 [] (by decide) (by decide))

/-- C5: timestamp extraction returns a string only when `GPSTimeStamp`
holds exactly 3 rationals; each component is truncated (floored, not
rounded) to an unsigned integer and zero-padded to 2 digits; with a
decodable `GPSDateStamp` string the result is `"<date> HH:MM:SS"`, without
one the bare `"HH:MM:SS"`. -/
theorem timestamp_spec (e : Exif) :
    (∀ q : ℚ, 0 ≤ q → q ≤ 4294967295 → F.toU32 (F.fin q) = ⌊q⌋.toNat) ∧
    (∀ rs, getField e Tag.GPSTimeStamp = some (Value.Rational rs) →
      rs.length ≠ 3 → get_gps_timestamp e = Except.ok none) ∧
    (∀ t0 t1 t2,
      getField e Tag.GPSTimeStamp = some (Value.Rational [t0, t1, t2]) →
      ((getField e Tag.GPSDateStamp = none →
        get_gps_timestamp e = Except.ok (some (pad2 (F.toU32 (to_f64 t0)) ++
          ":" ++ pad2 (F.toU32 (to_f64 t1)) ++ ":" ++
          pad2 (F.toU32 (to_f64 t2))))) ∧
      (∀ c0 ctail date,
        getField e Tag.GPSDateStamp = some (Value.Ascii (c0 :: ctail)) →
        decodeUtf8 c0 = some date →
        get_gps_timestamp e = Except.ok (some (date ++ " " ++
          pad2 (F.toU32 (to_f64 t0)) ++ ":" ++ pad2 (F.toU32 (to_f64 t1)) ++
          ":" ++ pad2 (F.toU32 (to_f64 t2))))))) := by
  refine ⟨?_, ?_, ?_⟩
  · intro q h0 hle
    have hmin : ⌊q⌋.toNat ≤ 4294967295 := by
      rw [Int.toNat_le]
      exact_mod_cast (Int.floor_le q).trans hle
    simp [F.toU32, not_lt.mpr h0, min_eq_left hmin]
  · intro rs h hlen
    rcases rs with _ | ⟨a, _ | ⟨b, _ | ⟨c, _ | ⟨d, tl⟩⟩⟩⟩
    · simp [get_gps_timestamp, get_gps_rational, h]
    · simp [get_gps_timestamp, get_gps_rational, h]
    · simp [get_gps_timestamp, get_gps_rational, h]
    · exact absurd rfl hlen
    · simp [get_gps_timestamp, get_gps_rational, h]
  · intro t0 t1 t2 h
    constructor
    · intro hd
      simp [get_gps_timestamp, get_gps_rational, h, hd]
    · intro c0 ctail date hd hdec
      simp [get_gps_timestamp, get_gps_rational, h, hd, hdec]

/-- Witness for C5: hour 5, minute 3, second 9 with date `"2023:04:01"`. -/
theorem timestamp_spec_witness :
    get_gps_timestamp
      ⟨[(Tag.GPSTimeStamp, Value.Rational [⟨5, 1⟩, ⟨3, 1⟩, ⟨9, 1⟩]),
        (Tag.GPSDateStamp,
          Value.Ascii [[50, 48, 50, 51, 58, 48, 52, 58, 48, 49]])]⟩ =
      Except.ok (some ("2023:04:01" ++ " " ++
        pad2 (F.toU32 (to_f64 ⟨5, 1⟩)) ++ ":" ++
        pad2 (F.toU32 (to_f64 ⟨3, 1⟩)) ++ ":" ++
        pad2 (F.toU32 (to_f64 ⟨9, 1⟩)))) :=
  ((timestamp_spec
    ⟨[(Tag.GPSTimeStamp, Value.Rational [⟨5, 1⟩, ⟨3, 1⟩, ⟨9, 1⟩]),
      (Tag.GPSDateStamp,
        Value.Ascii [[50, 48, 50, 51, 58, 48, 52, 58, 48, 49]])]⟩).2.2
    ⟨5, 1⟩ ⟨3, 1⟩ ⟨9, 1⟩ (by decide)).2
    [50, 48, 50, 51, 58, 48, 52, 58, 48, 49] [] "2023:04:01"
    (by decide) (by decide)

/-- C6: for every tag, `get_gps_rational` returns nothing both when the
tag is absent and when its value is not rational-encoded, and
`get_gps_ref` returns nothing (without raising) both when the tag is
absent and when its value is not ASCII-encoded: a type mismatch is
indistinguishable from absence. -/
theorem tag_reader_lenient (e : Exif) (tag : Tag) :
    (getField e tag = none →
      get_gps_rational e tag = none ∧ get_gps_ref e tag = Except.ok none) ∧
    (∀ v, getField e tag = some v → (∀ rs, v ≠ Value.Rational rs) →
      get_gps_rational e tag = none) ∧
    (∀ v, getField e tag = some v → (∀ cs, v ≠ Value.Ascii cs) →
      get_gps_ref e tag = Except.ok none) := by
  refine ⟨?_, ?_, ?_⟩
  · intro h
    exact ⟨by simp [get_gps_rational, h], by simp [get_gps_ref, h]⟩
  · intro v h hv
    cases v with
    | Rational rs => exact absurd rfl (hv rs)
    | Ascii cs => simp [get_gps_rational, h]
    | Byte bs => simp [get_gps_rational, h]
    | Other => simp [get_gps_rational, h]
  · intro v h hv
    cases v with
    | Rational rs => simp [get_gps_ref, h]
    | Ascii cs => exact absurd rfl (hv cs)
    | Byte bs => simp [get_gps_ref, h]
    | Other => simp [get_gps_ref, h]

/-- Witness for C6: a byte-encoded value is a type mismatch for both
accessors and an absent tag yields nothing for both. -/
theorem tag_reader_lenient_witness :
    (get_gps_rational ⟨[(Tag.GPSLatitude, Value.Byte [7])]⟩ Tag.GPSLatitude =
      none) ∧
    (get_gps_ref ⟨[(Tag.GPSLatitude, Value.Byte [7])]⟩ Tag.GPSLatitude =
      Except.ok none) ∧
    (get_gps_rational ⟨[(Tag.GPSLatitude, Value.Byte [7])]⟩ Tag.GPSLongitude =
      none) :=
  ⟨(tag_reader_lenient ⟨[(Tag.GPSLatitude, Value.Byte [7])]⟩
      Tag.GPSLatitude).2.1 (Value.Byte [7]) (by decide)
      (fun _ h => Value.noConfusion h),
    (tag_reader_lenient ⟨[(Tag.GPSLatitude, Value.Byte [7])]⟩
      Tag.GPSLatitude).2.2 (Value.Byte [7]) (by decide)
      (fun _ h => Value.noConfusion h),
    ((tag_reader_lenient ⟨[(Tag.GPSLatitude, Value.Byte [7])]⟩
      Tag.GPSLongitude).1 (by decide)).1⟩

/-! Evaluation lemmas for the two float-formatting models on natural
values, and the coordinate block on fully present data. -/

lemma roundHalfEven_natCast (n : ℕ) : roundHalfEven (n : ℚ) = n := by
  unfold roundHalfEven
  rw [Int.floor_natCast]
  norm_num

lemma fmtFixed_fin_natCast (prec n : ℕ) (hp : prec ≠ 0) :
    fmtFixed prec (F.fin (n : ℚ)) =
      natRepr n ++ "." ++ zeroPad prec (natRepr 0) := by
  have hn : (0 : ℚ) ≤ (n : ℚ) := Nat.cast_nonneg n
  have habs : |((n : ℚ))| * 10 ^ prec = ((n * 10 ^ prec : ℕ) : ℚ) := by
    rw [abs_of_nonneg hn]
    push_cast
    ring
  have hpow : 0 < 10 ^ prec := Nat.pos_pow_of_pos prec (by norm_num)
  simp only [fmtFixed, habs, roundHalfEven_natCast]
  rw [if_neg (not_lt.mpr hn), if_neg hp,
    Nat.mul_div_cancel n hpow, Nat.mul_mod_left]

lemma displayF_fin_natCast (n : ℕ) : displayF (F.fin (n : ℚ)) = natRepr n := by
  have hn : (0 : ℚ) ≤ (n : ℚ) := Nat.cast_nonneg n
  have habs : |((n : ℚ))| = (n : ℚ) := abs_of_nonneg hn
  have hfind : (List.range 65).find?
      (fun k => decide ((|((n : ℚ))| * (10 : ℚ) ^ k).den = 1)) = some 0 := by
    rw [List.range_succ_eq_map]
    apply List.find?_cons_of_pos
    simp [habs]
  have hm : (|((n : ℚ))| * (10 : ℚ) ^ 0).num.toNat = n := by
    simp [habs]
  simp only [displayF, hfind]
  rw [if_neg (not_lt.mpr hn)]
  simp [hm]

lemma coordinateLines_of_all (e : Exif) (lat : List GPSImage.Rational)
    (latRef : String) (lon : List GPSImage.Rational) (lonRef : String)
    (h1 : get_gps_rational e Tag.GPSLatitude = some lat)
    (h2 : get_gps_ref e Tag.GPSLatitudeRef = Except.ok (some latRef))
    (h3 : get_gps_rational e Tag.GPSLongitude = some lon)
    (h4 : get_gps_ref e Tag.GPSLongitudeRef = Except.ok (some lonRef)) :
    coordinateLines e = Except.ok
      ["Location: " ++ fmtFixed 6 (convert_to_decimal_degree lat latRef).abs ++
        "*" ++ (if (convert_to_decimal_degree lat latRef).ge0 then "N" else "S") ++
        ", " ++ fmtFixed 6 (convert_to_decimal_degree lon lonRef).abs ++
        "*" ++ (if (convert_to_decimal_degree lon lonRef).ge0 then "E" else "W"),
      "Google Maps Link: https://www.google.com/maps?q=" ++
        displayF (convert_to_decimal_degree lat latRef) ++ "," ++
        displayF (convert_to_decimal_degree lon lonRef)] := by
  simp [coordinateLines, h1, h2, h3, h4]

/-- C3: coordinate emission is all-or-nothing: when the coordinate block
completes without a panic, it emits its (paired) location and link lines
if and only if all four of latitude rationals, latitude reference,
longitude rationals and longitude reference are present; if any one is
absent, no coordinate line at all is emitted. -/
theorem coordinates_all_or_nothing (e : Exif) (ls : List String)
    (h : coordinateLines e = Except.ok ls) :
    ls ≠ [] ↔ ((get_gps_rational e Tag.GPSLatitude).isSome ∧
      (∃ s, get_gps_ref e Tag.GPSLatitudeRef = Except.ok (some s)) ∧
      (get_gps_rational e Tag.GPSLongitude).isSome ∧
      (∃ s, get_gps_ref e Tag.GPSLongitudeRef = Except.ok (some s))) := by
  rcases h1 : get_gps_ref e Tag.GPSLatitudeRef with m | o1
  · simp [coordinateLines, h1] at h
  · rcases h2 : get_gps_ref e Tag.GPSLongitudeRef with m | o2
    · simp [coordinateLines, h1, h2] at h
    · rcases h3 : get_gps_rational e Tag.GPSLatitude with _ | lat <;>
        rcases h4 : get_gps_rational e Tag.GPSLongitude with _ | lon <;>
        rcases o1 with _ | s1 <;> rcases o2 with _ | s2 <;>
        · simp only [coordinateLines, h1, h2, h3, h4] at h
          simp only [Except.ok.injEq] at h
          subst h
          simp [h1, h2, h3, h4]

/-- Witness for C3: longitude reference missing while the other three
fields are present gives no coordinate lines at all. -/
theorem coordinates_all_or_nothing_witness :
    coordinateLines
      ⟨[(Tag.GPSLatitude, Value.Rational [⟨1, 1⟩, ⟨0, 1⟩, ⟨0, 1⟩]),
        (Tag.GPSLatitudeRef, Value.Ascii [[78]]),
        (Tag.GPSLongitude, Value.Rational [⟨2, 1⟩, ⟨0, 1⟩, ⟨0, 1⟩])]⟩ =
      Except.ok [] ∧
    (([] : List String) ≠ [] ↔
      ((get_gps_rational
        ⟨[(Tag.GPSLatitude, Value.Rational [⟨1, 1⟩, ⟨0, 1⟩, ⟨0, 1⟩]),
          (Tag.GPSLatitudeRef, Value.Ascii [[78]]),
          (Tag.GPSLongitude, Value.Rational [⟨2, 1⟩, ⟨0, 1⟩, ⟨0, 1⟩])]⟩
        Tag.GPSLatitude).isSome ∧
      (∃ s, get_gps_ref
        ⟨[(Tag.GPSLatitude, Value.Rational [⟨1, 1⟩, ⟨0, 1⟩, ⟨0, 1⟩]),
          (Tag.GPSLatitudeRef, Value.Ascii [[78]]),
          (Tag.GPSLongitude, Value.Rational [⟨2, 1⟩, ⟨0, 1⟩, ⟨0, 1⟩])]⟩
        Tag.GPSLatitudeRef = Except.ok (some s)) ∧
      (get_gps_rational
        ⟨[(Tag.GPSLatitude, Value.Rational [⟨1, 1⟩, ⟨0, 1⟩, ⟨0, 1⟩]),
          (Tag.GPSLatitudeRef, Value.Ascii [[78]]),
          (Tag.GPSLongitude, Value.Rational [⟨2, 1⟩, ⟨0, 1⟩, ⟨0, 1⟩])]⟩
        Tag.GPSLongitude).isSome ∧
      (∃ s, get_gps_ref
        ⟨[(Tag.GPSLatitude, Value.Rational [⟨1, 1⟩, ⟨0, 1⟩, ⟨0, 1⟩]),
          (Tag.GPSLatitudeRef, Value.Ascii [[78]]),
          (Tag.GPSLongitude, Value.Rational [⟨2, 1⟩, ⟨0, 1⟩, ⟨0, 1⟩])]⟩
        Tag.GPSLongitudeRef = Except.ok (some s)))) :=
  ⟨rfl,
    coordinates_all_or_nothing
      ⟨[(Tag.GPSLatitude, Value.Rational [⟨1, 1⟩, ⟨0, 1⟩, ⟨0, 1⟩]),
        (Tag.GPSLatitudeRef, Value.Ascii [[78]]),
        (Tag.GPSLongitude, Value.Rational [⟨2, 1⟩, ⟨0, 1⟩, ⟨0, 1⟩])]⟩
      [] rfl⟩

/-- C7: the extraction functions are NOT panic-free — an ASCII tag value
holding zero byte strings makes `get_gps_ref` (and through it the whole
GPS block) index `chars[0]` out of bounds, and an empty byte value makes
`get_gps_altitude` index `bytes[0]` out of bounds, where the spec requires
absence to be returned instead. -/
theorem panic_on_empty_sequences :
    get_gps_ref ⟨[(Tag.GPSLatitudeRef, Value.Ascii [])]⟩ Tag.GPSLatitudeRef =
      Except.error "index out of bounds" ∧
    gpsInfoLines ⟨[(Tag.GPSLatitudeRef, Value.Ascii [])]⟩ =
      Except.error "index out of bounds" ∧
    get_gps_altitude
      ⟨[(Tag.GPSAltitude, Value.Rational [⟨1, 1⟩]),
        (Tag.GPSAltitudeRef, Value.Byte [])]⟩ =
      Except.error "index out of bounds" :=
  ⟨rfl, rfl, rfl⟩

lemma to_f64_zero_denom (n : ℕ) (hn : n ≠ 0) : to_f64 ⟨n, 0⟩ = F.inf false := by
  have hq : ((n : ℚ)) ≠ 0 := Nat.cast_ne_zero.mpr hn
  have hn0 : ¬((n : ℚ) < 0) := not_lt.mpr (Nat.cast_nonneg n)
  simp [to_f64, F.div, hq, hn0]

lemma to_f64_zero_zero : to_f64 ⟨0, 0⟩ = F.nan := by
  simp [to_f64, F.div]

/-- C8 counterexample: a zero denominator is not treated as invalid — the
converter returns an infinite decimal degree, `to_f64` on `0/0` is NaN,
and the altitude pipeline emits the infinity. -/
theorem zero_denominator_cex :
    convert_to_decimal_degree [⟨1, 0⟩, ⟨0, 1⟩, ⟨0, 1⟩] "N" = F.inf false ∧
    to_f64 ⟨0, 0⟩ = F.nan ∧
    get_gps_altitude ⟨[(Tag.GPSAltitude, Value.Rational [⟨1, 0⟩])]⟩ =
      Except.ok (some (F.inf false)) := by
  refine ⟨?_, to_f64_zero_zero, ?_⟩
  · unfold convert_to_decimal_degree
    rw [if_neg (by simp)]
    simp only []
    rw [to_f64_zero_denom 1 one_ne_zero,
      to_f64_of_denom_ne_zero ⟨0, 1⟩ one_ne_zero,
      div_fin_fin _ 60 (by norm_num), div_fin_fin _ 3600 (by norm_num),
      if_neg (by decide)]
    rfl
  · have hA : getField ⟨[(Tag.GPSAltitude, Value.Rational [⟨1, 0⟩])]⟩
        Tag.GPSAltitude = some (Value.Rational [⟨1, 0⟩]) := rfl
    have hR : getField ⟨[(Tag.GPSAltitude, Value.Rational [⟨1, 0⟩])]⟩
        Tag.GPSAltitudeRef = none := rfl
    simp [get_gps_altitude, get_gps_rational, hA, hR,
      to_f64_zero_denom 1 one_ne_zero]

/-- C8 (amended): a Rational with denominator 0 is NOT treated as invalid
when converting to a 64-bit floating value: `to_f64` yields positive
infinity for a nonzero numerator and NaN for numerator 0, and the infinity
propagates unguarded through the decimal converter and the altitude
extraction into their results. -/
theorem zero_denominator_propagates (n : ℕ) (hn : n ≠ 0)
    (c1 c2 : Rational) (h1 : c1.denom ≠ 0) (h2 : c2.denom ≠ 0)
    (reference : String) (hS : reference ≠ "S") (hW : reference ≠ "W") :
    to_f64 ⟨n, 0⟩ = F.inf false ∧
    to_f64 ⟨0, 0⟩ = F.nan ∧
    convert_to_decimal_degree [⟨n, 0⟩, c1, c2] reference = F.inf false ∧
    (∀ e rs, getField e Tag.GPSAltitude =
        some (Value.Rational (⟨n, 0⟩ :: rs)) →
      getField e Tag.GPSAltitudeRef = none →
      get_gps_altitude e = Except.ok (some (F.inf false))) := by
  refine ⟨to_f64_zero_denom n hn, to_f64_zero_zero, ?_, ?_⟩
  · unfold convert_to_decimal_degree
    rw [if_neg (by simp)]
    simp only []
    rw [to_f64_zero_denom n hn, to_f64_of_denom_ne_zero c1 h1,
      to_f64_of_denom_ne_zero c2 h2,
      div_fin_fin _ 60 (by norm_num), div_fin_fin _ 3600 (by norm_num),
      if_neg (not_or.mpr ⟨hS, hW⟩)]
    rfl
  · intro e rs hA hR
    simp [get_gps_altitude, get_gps_rational, hA, hR,
      to_f64_zero_denom n hn]

/-- Witness for the amended C8 at numerator 1, finite minutes/seconds and
reference `"E"`. -/
theorem zero_denominator_propagates_witness :
    to_f64 ⟨1, 0⟩ = F.inf false ∧
    convert_to_decimal_degree [⟨1, 0⟩, ⟨2, 1⟩, ⟨3, 1⟩] "E" = F.inf false :=
  ⟨(zero_denominator_propagates 1 (by decide) ⟨2, 1⟩ ⟨3, 1⟩
      (by decide) (by decide) "E" (by decide) (by decide)).1,
    (zero_denominator_propagates 1 (by decide) ⟨2, 1⟩ ⟨3, 1⟩
      (by decide) (by decide) "E" (by decide) (by decide)).2.2.1⟩

lemma convert_unit_nat (m : ℕ) (ref : String) (hS : ref ≠ "S")
    (hW : ref ≠ "W") :
    convert_to_decimal_degree [⟨m, 1⟩, ⟨0, 1⟩, ⟨0, 1⟩] ref =
      F.fin ((m : ℚ)) := by
  rw [convert_three_eval ⟨m, 1⟩ ⟨0, 1⟩ ⟨0, 1⟩ ref one_ne_zero one_ne_zero
    one_ne_zero, if_neg (not_or.mpr ⟨hS, hW⟩)]
  simp only [F.fin.injEq]
  norm_num

lemma abs_fin_natCast (m : ℕ) : F.abs (F.fin ((m : ℚ))) = F.fin ((m : ℚ)) := by
  have hm : |((m : ℚ))| = (m : ℚ) := abs_of_nonneg (Nat.cast_nonneg m)
  simp [F.abs, hm]

lemma ge0_fin_natCast (m : ℕ) : F.ge0 (F.fin ((m : ℚ))) = true := by
  simp [F.ge0, Nat.cast_nonneg]

/-- C9 counterexample: at latitude 1°N, longitude 2°E the coordinate block
emits `"Location: 1.000000*N, 2.000000*E"` — magnitude and hemisphere
letter separated by `'*'` — which differs from the claimed
`"Location: 1.000000°N, 2.000000°E"` with the degree sign. -/
theorem location_separator_cex :
    coordinateLines
      ⟨[(Tag.GPSLatitude, Value.Rational [⟨1, 1⟩, ⟨0, 1⟩, ⟨0, 1⟩]),
        (Tag.GPSLatitudeRef, Value.Ascii [[78]]),
        (Tag.GPSLongitude, Value.Rational [⟨2, 1⟩, ⟨0, 1⟩, ⟨0, 1⟩]),
        (Tag.GPSLongitudeRef, Value.Ascii [[69]])]⟩ =
      Except.ok
        ["Location: 1.000000*N, 2.000000*E",
          "Google Maps Link: https://www.google.com/maps?q=1,2"] ∧
    ("Location: 1.000000*N, 2.000000*E" : String) ≠
      "Location: 1.000000°N, 2.000000°E" := by
  constructor
  · rw [coordinateLines_of_all
      ⟨[(Tag.GPSLatitude, Value.Rational [⟨1, 1⟩, ⟨0, 1⟩, ⟨0, 1⟩]),
        (Tag.GPSLatitudeRef, Value.Ascii [[78]]),
        (Tag.GPSLongitude, Value.Rational [⟨2, 1⟩, ⟨0, 1⟩, ⟨0, 1⟩]),
        (Tag.GPSLongitudeRef, Value.Ascii [[69]])]⟩
      [⟨1, 1⟩, ⟨0, 1⟩, ⟨0, 1⟩] "N"
      [⟨2, 1⟩, ⟨0, 1⟩, ⟨0, 1⟩] "E" rfl rfl rfl rfl]
    rw [convert_unit_nat 1 "N" (by decide) (by decide),
      convert_unit_nat 2 "E" (by decide) (by decide),
      abs_fin_natCast 1, abs_fin_natCast 2,
      fmtFixed_fin_natCast 6 1 (by decide), fmtFixed_fin_natCast 6 2 (by decide),
      displayF_fin_natCast 1, displayF_fin_natCast 2,
      ge0_fin_natCast 1, ge0_fin_natCast 2]
    rfl
  · decide

/-- C9 (amended): when all four coordinate fields are present, the output
contains the line `"Location: {lat:.6}*{N|S}, {lon:.6}*{E|W}"` — the
unsigned magnitude to 6 decimal places and the direction letter derived
from the sign, separated by `'*'` rather than the claimed `'°'` — and the
line `"Google Maps Link: https://www.google.com/maps?q={lat},{lon}"` with
the signed decimal values. -/
theorem location_lines_format (e : Exif) (lat : List GPSImage.Rational)
    (latRef : String) (lon : List GPSImage.Rational) (lonRef : String)
    (h1 : get_gps_rational e Tag.GPSLatitude = some lat)
    (h2 : get_gps_ref e Tag.GPSLatitudeRef = Except.ok (some latRef))
    (h3 : get_gps_rational e Tag.GPSLongitude = some lon)
    (h4 : get_gps_ref e Tag.GPSLongitudeRef = Except.ok (some lonRef)) :
    coordinateLines e = Except.ok
      ["Location: " ++ fmtFixed 6 (convert_to_decimal_degree lat latRef).abs ++
        "*" ++ (if (convert_to_decimal_degree lat latRef).ge0 then "N" else "S") ++
        ", " ++ fmtFixed 6 (convert_to_decimal_degree lon lonRef).abs ++
        "*" ++ (if (convert_to_decimal_degree lon lonRef).ge0 then "E" else "W"),
      "Google Maps Link: https://www.google.com/maps?q=" ++
        displayF (convert_to_decimal_degree lat latRef) ++ "," ++
        displayF (convert_to_decimal_degree lon lonRef)] :=
  coordinateLines_of_all e lat latRef lon lonRef h1 h2 h3 h4

/-- Witness for the amended C9 at latitude 3°N, longitude 4°E. -/
theorem location_lines_format_witness :
    coordinateLines
      ⟨[(Tag.GPSLatitude, Value.Rational [⟨3, 1⟩, ⟨0, 1⟩, ⟨0, 1⟩]),
        (Tag.GPSLatitudeRef, Value.Ascii [[78]]),
        (Tag.GPSLongitude, Value.Rational [⟨4, 1⟩, ⟨0, 1⟩, ⟨0, 1⟩]),
        (Tag.GPSLongitudeRef, Value.Ascii [[69]])]⟩ =
      Except.ok
        ["Location: " ++
          fmtFixed 6 (convert_to_decimal_degree
            [⟨3, 1⟩, ⟨0, 1⟩, ⟨0, 1⟩] "N").abs ++ "*" ++
          (if (convert_to_decimal_degree
            [⟨3, 1⟩, ⟨0, 1⟩, ⟨0, 1⟩] "N").ge0 then "N" else "S") ++ ", " ++
          fmtFixed 6 (convert_to_decimal_degree
            [⟨4, 1⟩, ⟨0, 1⟩, ⟨0, 1⟩] "E").abs ++ "*" ++
          (if (convert_to_decimal_degree
            [⟨4, 1⟩, ⟨0, 1⟩, ⟨0, 1⟩] "E").ge0 then "E" else "W"),
        "Google Maps Link: https://www.google.com/maps?q=" ++
          displayF (convert_to_decimal_degree
            [⟨3, 1⟩, ⟨0, 1⟩, ⟨0, 1⟩] "N") ++ "," ++
          displayF (convert_to_decimal_degree
            [⟨4, 1⟩, ⟨0, 1⟩, ⟨0, 1⟩] "E")] :=
  location_lines_format
    ⟨[(Tag.GPSLatitude, Value.Rational [⟨3, 1⟩, ⟨0, 1⟩, ⟨0, 1⟩]),
      (Tag.GPSLatitudeRef, Value.Ascii [[78]]),
      (Tag.GPSLongitude, Value.Rational [⟨4, 1⟩, ⟨0, 1⟩, ⟨0, 1⟩]),
      (Tag.GPSLongitudeRef, Value.Ascii [[69]])]⟩
    [⟨3, 1⟩, ⟨0, 1⟩, ⟨0, 1⟩] "N" [⟨4, 1⟩, ⟨0, 1⟩, ⟨0, 1⟩] "E"
    rfl rfl rfl rfl

end GPSImage
